import Mathlib

set_option maxRecDepth 4000

/-!
# Verification of the ZeroClaw Android FFI facade (`zeroclaw-ffi`)

A shallow embedding, in Lean 4, of the daemon-lifecycle, supervisor-backoff,
event-bridge, budget-conversion, panic-boundary and message-dispatch logic of
the `zeroclaw-ffi` crate (`zeroclaw-android/zeroclaw-ffi/src/`), together with
theorems settling the specification claims about that code.

Conventions used throughout:
* Rust `u64` / `usize` / `u16` values are modelled as `Nat`; where saturating
  arithmetic matters the `u64` bound `2 ^ 64 - 1` is made explicit.
* Rust `String` is modelled as Lean `String`; character-level operations work
  on `String.data` (a `List Char`), which matches Rust's `str::chars()`
  because both iterate Unicode scalar values.
* Fallible external collaborators (TOML parsing, the tokio runtime builder,
  `CostTracker::new`, `create_memory`, the HTTP gateway) are modelled as
  environment records carrying their outcome for the call under scrutiny.
* Side effects (filesystem mutation, mutex operations, task spawns and aborts,
  health markings, HTTP requests) are modelled as an explicit trace of
  `Effect` values emitted in program order.
-/

/-- The FFI error taxonomy, from `error.rs` (`enum FfiError`).  Each variant
carries a `detail` string exactly as in the source. -/
inductive FfiError : Type
  /-- TOML parse failures, missing fields, or invalid paths. -/
  | ConfigError (detail : String)
  /-- Daemon already running or not running when expected. -/
  | StateError (detail : String)
  /-- Tokio runtime creation failure or component spawn errors. -/
  | SpawnError (detail : String)
  /-- The internal process state is irrecoverably corrupt. -/
  | StateCorrupted (detail : String)
  /-- Graceful shutdown failures. -/
  | ShutdownError (detail : String)
  /-- `catch_unwind` caught a panic at the FFI boundary. -/
  | InternalPanic (detail : String)
  deriving DecidableEq, Repr

/-! ## Component supervisor backoff (`runtime.rs:spawn_component_supervisor`) -/

/-- The `u64` saturation bound. -/
def u64Max : Nat := 2 ^ 64 - 1

/-- Rust `u64::saturating_mul(self, 2)` on a value modelled as `Nat`. -/
def satMul2 (b : Nat) : Nat := min (b * 2) u64Max

/-- The initial backoff actually used by the supervisor loop:
`initial_backoff_secs.max(1)` (`runtime.rs`, `let mut backoff = initial_backoff_secs.max(1)`). -/
def initBackoff (initial_backoff_secs : Nat) : Nat := max initial_backoff_secs 1

/-- The effective backoff ceiling: `max_backoff_secs.max(backoff)` where
`backoff` is the initial backoff (`runtime.rs`, `let max_backoff = max_backoff_secs.max(backoff)`). -/
def ceilBackoff (initial_backoff_secs max_backoff_secs : Nat) : Nat :=
  max max_backoff_secs (initBackoff initial_backoff_secs)

/-- One pass of the supervisor loop body, producing the sleep duration used by
each iteration.  `outcomes` lists, per iteration, whether `run_component()`
returned `Ok(())` (`true`, the "exited unexpectedly" case, which resets the
backoff) or `Err` (`false`, which keeps the doubled value).  `b` is the value
of the mutable `backoff` variable on entry to the iteration; the sleep happens
with the post-match value and the doubling
`backoff = backoff.saturating_mul(2).min(max_backoff)` happens after the sleep. -/
def supervisorSleepsAux (initial_backoff_secs ceiling : Nat) :
    Nat → List Bool → List Nat
  | _, [] => []
  | b, o :: rest =>
    let b1 := if o then initBackoff initial_backoff_secs else b
    b1 :: supervisorSleepsAux initial_backoff_secs ceiling (min (satMul2 b1) ceiling) rest

/-- The sequence of sleep durations performed by
`spawn_component_supervisor(name, initial_backoff_secs, max_backoff_secs, run_component)`
for a given sequence of attempt outcomes. -/
def supervisorSleeps (initial_backoff_secs max_backoff_secs : Nat)
    (outcomes : List Bool) : List Nat :=
  supervisorSleepsAux initial_backoff_secs
    (ceilBackoff initial_backoff_secs max_backoff_secs)
    (initBackoff initial_backoff_secs) outcomes

theorem supervisorSleepsAux_length (i c b : Nat) (os : List Bool) :
    (supervisorSleepsAux i c b os).length = os.length := by
  induction os generalizing b with
  | nil => rfl
  | cons o rest ih => simp [supervisorSleepsAux, ih]

theorem supervisorSleepsAux_le_ceiling (i c : Nat) (hc : initBackoff i ≤ c) :
    ∀ (os : List Bool) (b : Nat), b ≤ c →
      ∀ x ∈ supervisorSleepsAux i c b os, x ≤ c := by
  intro os
  induction os with
  | nil => intro b _ x hx; simp [supervisorSleepsAux] at hx
  | cons o rest ih =>
    intro b hb x hx
    simp only [supervisorSleepsAux, List.mem_cons] at hx
    rcases hx with h | h
    · subst h
      cases o
      · simpa using hb
      · simpa using hc
    · exact ih _ (min_le_right _ _) x h

theorem supervisorSleepsAux_get_reset (i c : Nat) :
    ∀ (os : List Bool) (b : Nat) (k : Nat), os.get? k = some true →
      (supervisorSleepsAux i c b os).get? k = some (initBackoff i) := by
  intro os
  induction os with
  | nil => intro b k h; simp at h
  | cons o rest ih =>
    intro b k h
    cases k with
    | zero =>
      simp only [List.get?] at h
      injection h with h
      subst h
      simp [supervisorSleepsAux]
    | succ k =>
      simp only [List.get?] at h
      simpa [supervisorSleepsAux] using ih _ k h

theorem supervisorSleepsAux_get_double (i c : Nat) :
    ∀ (os : List Bool) (b : Nat) (k : Nat) (s : Nat),
      (supervisorSleepsAux i c b os).get? k = some s →
      os.get? (k + 1) = some false →
      (supervisorSleepsAux i c b os).get? (k + 1) = some (min (satMul2 s) c) := by
  intro os
  induction os with
  | nil => intro b k s hs h; simp [supervisorSleepsAux] at hs
  | cons o rest ih =>
    intro b k s hs h
    cases k with
    | zero =>
      simp only [supervisorSleepsAux, List.get?] at hs ⊢
      injection hs with hs
      cases rest with
      | nil => simp at h
      | cons o2 rest2 =>
        simp only [List.get?] at h
        injection h with h
        subst h
        simp [supervisorSleepsAux, hs]
    | succ k =>
      simp only [supervisorSleepsAux, List.get?] at hs h ⊢
      exact ih _ k s hs h

/-! ## Event ring buffer (`events.rs`) -/

/-- Ring buffer capacity for event history (`events.rs`, `EVENT_BUFFER_CAPACITY`). -/
def EVENT_BUFFER_CAPACITY : Nat := 500

/-- The ring-buffer mutation performed by `AndroidObserver::record_event`:
`if buf.len() >= EVENT_BUFFER_CAPACITY { buf.pop_front(); } buf.push_back(json)`.
The `VecDeque<String>` is modelled front-first as a `List String`. -/
def recordEventBuffer (buf : List String) (json : String) : List String :=
  (if EVENT_BUFFER_CAPACITY ≤ buf.length then buf.tail else buf) ++ [json]

theorem recordEventBuffer_length_le (buf : List String) (json : String)
    (h : buf.length ≤ EVENT_BUFFER_CAPACITY) :
    (recordEventBuffer buf json).length ≤ EVENT_BUFFER_CAPACITY := by
  have hcap : EVENT_BUFFER_CAPACITY = 500 := rfl
  unfold recordEventBuffer
  by_cases hc : EVENT_BUFFER_CAPACITY ≤ buf.length
  · simp only [if_pos hc, List.length_append, List.length_tail, List.length_cons,
      List.length_nil]
    omega
  · simp only [if_neg hc, List.length_append, List.length_cons, List.length_nil]
    omega

theorem foldl_recordEventBuffer_eq (evs : List String) :
    ∀ (buf : List String), buf.length ≤ EVENT_BUFFER_CAPACITY →
      List.foldl recordEventBuffer buf evs =
        (buf ++ evs).drop (buf.length + evs.length - EVENT_BUFFER_CAPACITY) := by
  induction evs with
  | nil =>
    intro buf h
    simp only [List.foldl_nil, List.append_nil, List.length_nil, Nat.add_zero]
    rw [Nat.sub_eq_zero_of_le h, List.drop_zero]
  | cons e rest ih =>
    intro buf h
    rw [List.foldl_cons]
    by_cases hc : EVENT_BUFFER_CAPACITY ≤ buf.length
    · have hlen : buf.length = EVENT_BUFFER_CAPACITY := le_antisymm h hc
      have hcap : EVENT_BUFFER_CAPACITY = 500 := rfl
      have hne : buf ≠ [] := by
        intro hnil
        rw [hnil] at hlen
        simp only [List.length_nil] at hlen
        omega
      have hstep : recordEventBuffer buf e = buf.tail ++ [e] := by
        simp [recordEventBuffer, hc]
      have hslen : (buf.tail ++ [e]).length = EVENT_BUFFER_CAPACITY := by
        cases buf with
        | nil => exact absurd rfl hne
        | cons a l =>
          simp only [List.tail_cons, List.length_append, List.length_cons,
            List.length_nil] at *
          omega
      rw [hstep, ih _ (le_of_eq hslen), hslen]
      cases buf with
      | nil => exact absurd rfl hne
      | cons a l =>
        simp only [List.tail_cons, List.cons_append, List.length_cons]
        have harith : l.length + 1 + (rest.length + 1) - EVENT_BUFFER_CAPACITY =
            (EVENT_BUFFER_CAPACITY + rest.length + 1) - EVENT_BUFFER_CAPACITY := by
          simp only [List.length_cons] at hlen
          omega
        rw [harith]
        have : EVENT_BUFFER_CAPACITY + rest.length + 1 - EVENT_BUFFER_CAPACITY =
            rest.length + 1 := by omega
        rw [this]
        have hdrop : (a :: (l ++ e :: rest)).drop (rest.length + 1) =
            ((a :: (l ++ e :: rest)).drop 1).drop rest.length := by
          rw [List.drop_drop]
          congr 1
          omega
        have harith2 : EVENT_BUFFER_CAPACITY + rest.length - EVENT_BUFFER_CAPACITY =
            rest.length := by omega
        rw [harith2, hdrop]
        simp [List.append_assoc]
    · push_neg at hc
      have hstep : recordEventBuffer buf e = buf ++ [e] := by
        simp [recordEventBuffer, not_le.mpr hc]
      have hslen : (buf ++ [e]).length ≤ EVENT_BUFFER_CAPACITY := by
        simp only [List.length_append, List.length_cons, List.length_nil]
        omega
      rw [hstep, ih _ hslen]
      simp only [List.length_append, List.length_cons, List.length_nil,
        List.append_assoc, List.singleton_append]
      congr 2
      omega

/-- `get_recent_events_inner(limit)` from `events.rs`, as a pure function of
the locked buffer contents: `start = len.saturating_sub(limit)`, then the JSON
array literal joining the retained suffix with commas. -/
def get_recent_events_inner (buf : List String) (limit : Nat) : String :=
  "[" ++ String.intercalate "," (buf.drop (buf.length - limit)) ++ "]"

/-- The window of entries selected by `get_recent_events_inner`. -/
def recentWindow (buf : List String) (limit : Nat) : List String :=
  buf.drop (buf.length - limit)

/-- **C4**: For the supervisor loop of `spawn_component_supervisor` with
parameters `initial_backoff_secs` and `max_backoff_secs`:
(1) the first sleep duration is `max(initial_backoff_secs, 1)`;
(2) every sleep is bounded by the effective ceiling
`max(max_backoff_secs, initial backoff)`, which itself is at least the initial
backoff, and stays within the `u64` range whenever the parameters do (the
saturating multiply never overflows or panics, for any number of failures);
(3) each error outcome doubles the current backoff with saturating
multiplication clamped to the ceiling;
(4) a success-returning attempt resets the backoff to
`max(initial_backoff_secs, 1)`;
(5) with `initial = 1, max = 60` the sleep sequence under repeated failures is
`1,2,4,8,16,32,60,60,...` and with `initial = 2, max = 10` it is
`2,4,8,10,10,...`. -/
theorem C4_supervisor_backoff :
    (∀ (i m : Nat) (o : Bool) (rest : List Bool),
        (supervisorSleeps i m (o :: rest)).head? = some (initBackoff i)) ∧
    (∀ (i m : Nat), initBackoff i ≤ ceilBackoff i m) ∧
    (∀ (i m : Nat) (os : List Bool), ∀ x ∈ supervisorSleeps i m os,
        x ≤ ceilBackoff i m) ∧
    (∀ (i m : Nat) (os : List Bool), i ≤ u64Max → m ≤ u64Max →
        ∀ x ∈ supervisorSleeps i m os, x ≤ u64Max) ∧
    (∀ (i m : Nat) (os : List Bool) (k s : Nat),
        (supervisorSleeps i m os).get? k = some s →
        os.get? (k + 1) = some false →
        (supervisorSleeps i m os).get? (k + 1) =
          some (min (satMul2 s) (ceilBackoff i m))) ∧
    (∀ (i m : Nat) (os : List Bool) (k : Nat), os.get? k = some true →
        (supervisorSleeps i m os).get? k = some (initBackoff i)) ∧
    supervisorSleeps 1 60 (List.replicate 8 false) = [1, 2, 4, 8, 16, 32, 60, 60] ∧
    supervisorSleeps 2 10 (List.replicate 5 false) = [2, 4, 8, 10, 10] := by
  refine ⟨?_, ?_, ?_, ?_, ?_, ?_, ?_, ?_⟩
  · intro i m o rest
    cases o <;> simp [supervisorSleeps, supervisorSleepsAux]
  · intro i m
    exact le_max_right _ _
  · intro i m os x hx
    exact supervisorSleepsAux_le_ceiling i _ (le_max_right _ _) os _
      (le_max_right _ _) x hx
  · intro i m os hi hm x hx
    have hceil : ceilBackoff i m ≤ u64Max := by
      have h1 : (1 : Nat) ≤ u64Max := by norm_num [u64Max]
      simp only [ceilBackoff, initBackoff, max_le_iff]
      exact ⟨hm, hi, h1⟩
    exact le_trans (supervisorSleepsAux_le_ceiling i _ (le_max_right _ _) os _
      (le_max_right _ _) x hx) hceil
  · intro i m os k s hs hfail
    exact supervisorSleepsAux_get_double i _ os _ k s hs hfail
  · intro i m os k hk
    exact supervisorSleepsAux_get_reset i _ os _ k hk
  · decide
  · decide

/-- Witness for C4: instantiates the doubling law at `initial = 2`,
`max = 10`, two consecutive failures, discharging both hypotheses at the
concrete input. -/
theorem C4_supervisor_backoff_witness :
    (supervisorSleeps 2 10 [false, false]).get? 1 =
      some (min (satMul2 2) (ceilBackoff 2 10)) :=
  C4_supervisor_backoff.2.2.2.2.1 2 10 [false, false] 0 2 (by decide) (by decide)

/-- **C5**: starting from any buffer state reachable from empty (in
particular: for every sequence of `record_event` calls starting from the
empty buffer), the event ring buffer never holds more than 500 entries; and
after inserting 550 events into an empty buffer, exactly the most recent
500 remain, in insertion order (the oldest of the retained window first),
i.e. the result is the input sequence with its first 50 entries dropped. -/
theorem C5_ring_buffer_bounded :
    (∀ evs : List String,
        (List.foldl recordEventBuffer [] evs).length ≤ EVENT_BUFFER_CAPACITY) ∧
    (∀ evs : List String, evs.length = 550 →
        List.foldl recordEventBuffer [] evs = evs.drop 50) := by
  have hcap : EVENT_BUFFER_CAPACITY = 500 := rfl
  have hbase : ([] : List String).length ≤ EVENT_BUFFER_CAPACITY := by
    simp
  constructor
  · intro evs
    rw [foldl_recordEventBuffer_eq evs [] hbase]
    simp only [List.nil_append, List.length_nil, Nat.zero_add, List.length_drop]
    omega
  · intro evs hlen
    rw [foldl_recordEventBuffer_eq evs [] hbase]
    simp only [List.nil_append, List.length_nil, Nat.zero_add]
    rw [hlen]
    norm_num [hcap]

/-- Witness for C5: applies the 550-insertion clause to the concrete event
sequence `toString 0, …, toString 549`. -/
theorem C5_ring_buffer_bounded_witness :
    List.foldl recordEventBuffer [] ((List.range 550).map toString) =
      ((List.range 550).map toString).drop 50 :=
  C5_ring_buffer_bounded.2 ((List.range 550).map toString) (by simp)

/-- **C6**: for every buffer state and every limit,
`get_recent_events_inner(limit)` returns the most recent
`min(limit, buffer length)` buffered entries in chronological order —
formally, the selected window is the suffix of the buffer of exactly that
length — when `limit` exceeds the buffer length it returns the entire
buffer, and when `limit = 0` it returns the empty JSON array `"[]"`. -/
theorem C6_recent_events_window :
    ∀ (buf : List String) (limit : Nat),
      (recentWindow buf limit).length = min limit buf.length ∧
      buf.take (buf.length - limit) ++ recentWindow buf limit = buf ∧
      (buf.length ≤ limit → recentWindow buf limit = buf) ∧
      get_recent_events_inner buf limit =
        "[" ++ String.intercalate "," (recentWindow buf limit) ++ "]" ∧
      get_recent_events_inner buf 0 = "[]" := by
  intro buf limit
  refine ⟨?_, ?_, ?_, rfl, ?_⟩
  · simp only [recentWindow, List.length_drop]
    omega
  · exact List.take_append_drop _ buf
  · intro h
    have : buf.length - limit = 0 := Nat.sub_eq_zero_of_le h
    simp [recentWindow, this]
  · have : buf.length - 0 = buf.length := rfl
    simp only [get_recent_events_inner, this, List.drop_length]
    decide

/-- Witness for C6: applies the window characterisation at the concrete
buffer `["a", "b", "c"]` with limit `5`, discharging the
limit-exceeds-length hypothesis there. -/
theorem C6_recent_events_window_witness :
    recentWindow ["a", "b", "c"] 5 = ["a", "b", "c"] :=
  (C6_recent_events_window ["a", "b", "c"] 5).2.2.1 (by decide)

/-! ## JSON string escaping (`events.rs:escape_json_string`) -/

/-- The uppercase hexadecimal digit for `n < 16`, as produced by Rust's
`{:04X}` formatting. -/
def hexDigit (n : Nat) : Char :=
  if n < 10 then Char.ofNat (48 + n) else Char.ofNat (55 + n)

/-- The escape sequence `escape_json_string` (`events.rs`) emits for one
character: `"` and `\` are backslash-escaped, `\n`/`\r`/`\t` get their
canonical two-character escapes, all remaining control characters below
`0x20` become `\u00XX` (uppercase hex), and every other character is passed
through unchanged. -/
def escapeChar (c : Char) : List Char :=
  if c = '"' then ['\\', '"']
  else if c = '\\' then ['\\', '\\']
  else if c = '\n' then ['\\', 'n']
  else if c = '\r' then ['\\', 'r']
  else if c = '\t' then ['\\', 't']
  else if c.toNat < 0x20 then
    ['\\', 'u', '0', '0', hexDigit (c.toNat / 16), hexDigit (c.toNat % 16)]
  else [c]

/-- `escape_json_string` from `events.rs`: the concatenation of the escape
sequences of the input's characters (the Rust loop pushes them into `out`
in order). -/
def escape_json_string (s : String) : String :=
  ⟨(s.data.map escapeChar).flatten⟩

/-- The numeric value of one hexadecimal digit, accepting both cases, as a
JSON parser does (RFC 8259 `\uXXXX` escapes). -/
def hexVal (c : Char) : Option Nat :=
  if 48 ≤ c.toNat ∧ c.toNat ≤ 57 then some (c.toNat - 48)
  else if 65 ≤ c.toNat ∧ c.toNat ≤ 70 then some (c.toNat - 55)
  else if 97 ≤ c.toNat ∧ c.toNat ≤ 102 then some (c.toNat - 87)
  else none

/-- Prepends a decoded character to the value component of a scanner result. -/
def consScan (c : Char) : Option (List Char × List Char) → Option (List Char × List Char)
  | none => none
  | some (v, r) => some (c :: v, r)

/-- Prepends a decoded prefix to the value component of a scanner result. -/
def prependScan (s : List Char) :
    Option (List Char × List Char) → Option (List Char × List Char)
  | none => none
  | some (v, r) => some (s ++ v, r)

mutual

/-- Modelled from the spec: JSON string-literal scanning per RFC 8259
(the decoding side of the round-trip, performed in the crate's tests by
`serde_json`, which is an external collaborator of this crate).  Consumes
the body of a string literal after the opening quote, up to and including
the closing quote; handles the two-character escapes (via
`scanJsonEscape`), `\uXXXX` escapes with UTF-16 surrogate pairs (via
`scanJsonUnicode` and `scanJsonSurrogate`), rejects unescaped control
characters below `0x20`, and returns the decoded value together with the
unconsumed remainder. -/
def scanJsonString : List Char → Option (List Char × List Char)
  | [] => none
  | c :: rest =>
    if c = '"' then some ([], rest)
    else if c = '\\' then scanJsonEscape rest
    else if c.toNat < 0x20 then none
    else consScan c (scanJsonString rest)

/-- Modelled from the spec: decoding of one RFC 8259 escape sequence, the
characters after the backslash. -/
def scanJsonEscape : List Char → Option (List Char × List Char)
  | [] => none
  | e :: t =>
    if e = '"' then consScan '"' (scanJsonString t)
    else if e = '\\' then consScan '\\' (scanJsonString t)
    else if e = '/' then consScan '/' (scanJsonString t)
    else if e = 'b' then consScan (Char.ofNat 8) (scanJsonString t)
    else if e = 'f' then consScan (Char.ofNat 12) (scanJsonString t)
    else if e = 'n' then consScan '\n' (scanJsonString t)
    else if e = 'r' then consScan '\r' (scanJsonString t)
    else if e = 't' then consScan '\t' (scanJsonString t)
    else if e = 'u' then scanJsonUnicode t
    else none

/-- Modelled from the spec: decoding of the four hex digits of an RFC 8259
`\uXXXX` escape, dispatching surrogate values to `scanJsonSurrogate`. -/
def scanJsonUnicode : List Char → Option (List Char × List Char)
  | h1 :: h2 :: h3 :: h4 :: t2 =>
    match hexVal h1, hexVal h2, hexVal h3, hexVal h4 with
    | some a, some b, some cv, some d =>
      let n := ((a * 16 + b) * 16 + cv) * 16 + d
      if 0xD800 ≤ n ∧ n < 0xE000 then scanJsonSurrogate n t2
      else consScan (Char.ofNat n) (scanJsonString t2)
    | _, _, _, _ => none
  | _ => none

/-- Modelled from the spec: decoding of the low half of an RFC 8259 UTF-16
surrogate pair; `n` is the already-decoded high-half value. -/
def scanJsonSurrogate (n : Nat) : List Char → Option (List Char × List Char)
  | u1 :: u2 :: g1 :: g2 :: g3 :: g4 :: t3 =>
    if u1 = '\\' ∧ u2 = 'u' then
      match hexVal g1, hexVal g2, hexVal g3, hexVal g4 with
      | some a2, some b2, some c2, some d2 =>
        let m := ((a2 * 16 + b2) * 16 + c2) * 16 + d2
        if n < 0xDC00 ∧ 0xDC00 ≤ m ∧ m < 0xE000 then
          consScan (Char.ofNat (0x10000 + (n - 0xD800) * 0x400 + (m - 0xDC00)))
            (scanJsonString t3)
        else none
      | _, _, _, _ => none
    else none
  | _ => none

end

/-- Modelled from the spec: parsing a complete JSON string literal per
RFC 8259 — an opening quote, a scanned body, a closing quote, and nothing
after it. -/
def parseJsonStringLiteral (s : String) : Option String :=
  match s.data with
  | c :: rest =>
    if c = '"' then
      match scanJsonString rest with
      | some (v, []) => some ⟨v⟩
      | _ => none
    else none
  | [] => none

theorem hexVal_hexDigit : ∀ n < 16, hexVal (hexDigit n) = some n := by
  decide

theorem scanJsonString_backslash (l : List Char) :
    scanJsonString ('\\' :: l) = scanJsonEscape l := by
  simp [scanJsonString]

theorem scanJsonEscape_u (l : List Char) :
    scanJsonEscape ('u' :: l) = scanJsonUnicode l := by
  simp [scanJsonEscape]

/-- Scanning the escape sequence emitted for one character decodes exactly
that character and continues with the remainder. -/
theorem scanJsonString_escapeChar (c : Char) (rest : List Char) :
    scanJsonString (escapeChar c ++ rest) = consScan c (scanJsonString rest) := by
  by_cases h1 : c = '"'
  · subst h1
    simp [escapeChar, scanJsonString, scanJsonEscape]
  by_cases h2 : c = '\\'
  · subst h2
    simp [escapeChar, scanJsonString, scanJsonEscape]
  by_cases h3 : c = '\n'
  · subst h3
    simp [escapeChar, scanJsonString, scanJsonEscape]
  by_cases h4 : c = '\r'
  · subst h4
    simp [escapeChar, scanJsonString, scanJsonEscape]
  by_cases h5 : c = '\t'
  · subst h5
    simp [escapeChar, scanJsonString, scanJsonEscape]
  by_cases h6 : c.toNat < 0x20
  · have hd0 : hexVal '0' = some 0 := by decide
    have hd3 : hexVal (hexDigit (c.toNat / 16)) = some (c.toNat / 16) :=
      hexVal_hexDigit _ (by omega)
    have hd4 : hexVal (hexDigit (c.toNat % 16)) = some (c.toNat % 16) :=
      hexVal_hexDigit _ (by omega)
    simp only [escapeChar, if_neg h1, if_neg h2, if_neg h3, if_neg h4, if_neg h5,
      if_pos h6, List.cons_append, List.nil_append]
    rw [scanJsonString_backslash, scanJsonEscape_u]
    simp only [scanJsonUnicode, hd0, hd3, hd4]
    rw [if_neg (by omega)]
    have harith : ((0 * 16 + 0) * 16 + c.toNat / 16) * 16 + c.toNat % 16 = c.toNat := by
      omega
    rw [harith, Char.ofNat_toNat]
  · simp only [escapeChar, if_neg h1, if_neg h2, if_neg h3, if_neg h4, if_neg h5,
      if_neg h6, List.cons_append, List.nil_append]
    simp only [scanJsonString, if_neg h1, if_neg h2, if_neg h6]

/-- Scanning the escaped form of a whole character sequence decodes exactly
that sequence and continues with the remainder. -/
theorem scanJsonString_escape_append (s : List Char) (rest : List Char) :
    scanJsonString ((s.map escapeChar).flatten ++ rest) =
      prependScan s (scanJsonString rest) := by
  induction s with
  | nil =>
    cases h : scanJsonString rest <;> simp [prependScan, h]
  | cons c s ih =>
    simp only [List.map_cons, List.flatten_cons, List.append_assoc]
    rw [scanJsonString_escapeChar, ih]
    cases scanJsonString rest with
    | none => rfl
    | some vr =>
      cases vr with
      | mk v r => simp [consScan, prependScan]

/-- **C7**: for every string `s` — including strings containing double
quotes, backslashes, newlines, and NUL bytes — JSON-parsing the string
literal formed by wrapping `escape_json_string(s)` in double quotes yields
exactly `s`: escaping followed by JSON string decoding is the identity.
The second conjunct instantiates the round-trip at a concrete string
containing a double quote, a backslash, a newline and a NUL. -/
theorem C7_escape_json_roundtrip :
    (∀ s : String,
        parseJsonStringLiteral ("\"" ++ escape_json_string s ++ "\"") = some s) ∧
    parseJsonStringLiteral
        ("\"" ++ escape_json_string "a\"b\\c\nd\x00e" ++ "\"") =
      some "a\"b\\c\nd\x00e" := by
  have main : ∀ s : String,
      parseJsonStringLiteral ("\"" ++ escape_json_string s ++ "\"") = some s := by
    intro s
    have hdata : ("\"" ++ escape_json_string s ++ "\"").data
        = '"' :: ((s.data.map escapeChar).flatten ++ ['"']) := by
      simp [String.data_append, escape_json_string]
    have hquote : scanJsonString ['"'] = some ([], []) := by
      simp [scanJsonString]
    simp only [parseJsonStringLiteral, hdata, if_pos rfl]
    rw [scanJsonString_escape_append, hquote]
    simp only [prependScan, List.append_nil]
    cases s
    rfl
  exact ⟨main, main _⟩

/-! ## Budget-check conversion (`cost.rs`) -/

/-- `zeroclaw::cost::UsagePeriod`, the internal budget period enum consumed by
`format_period`. -/
inductive UsagePeriod : Type
  | Session
  | Day
  | Month
  deriving DecidableEq, Repr

/-- `zeroclaw::cost::BudgetCheck`, the internal three-way budget check result.
The monetary payload fields are Rust `f64` values that `check_budget_inner`
copies verbatim without arithmetic, so they are modelled by an arbitrary
type `α` to express that the conversion is an identity on them. -/
inductive BudgetCheck (α : Type) : Type
  | Allowed
  | Warning (current_usd limit_usd : α) (period : UsagePeriod)
  | Exceeded (current_usd limit_usd : α) (period : UsagePeriod)
  deriving DecidableEq, Repr

/-- `FfiBudgetStatus` from `cost.rs`, the transfer record, with the period
rendered as a string. -/
inductive FfiBudgetStatus (α : Type) : Type
  | Allowed
  | Warning (current_usd limit_usd : α) (period : String)
  | Exceeded (current_usd limit_usd : α) (period : String)
  deriving DecidableEq, Repr

/-- `format_period` from `cost.rs`. -/
def format_period : UsagePeriod → String
  | .Session => "session"
  | .Day => "day"
  | .Month => "month"

/-- The conversion `match` inside `check_budget_inner` (`cost.rs`), mapping
the internal `BudgetCheck` to the external `FfiBudgetStatus`. -/
def convert_budget_check {α : Type} : BudgetCheck α → FfiBudgetStatus α
  | .Allowed => .Allowed
  | .Warning current_usd limit_usd period =>
      .Warning current_usd limit_usd (format_period period)
  | .Exceeded current_usd limit_usd period =>
      .Exceeded current_usd limit_usd (format_period period)

/-- Discriminant observer on the internal budget check. -/
def BudgetCheck.tag {α : Type} : BudgetCheck α → Nat
  | .Allowed => 0
  | .Warning _ _ _ => 1
  | .Exceeded _ _ _ => 2

/-- Discriminant observer on the external budget status. -/
def FfiBudgetStatus.tag {α : Type} : FfiBudgetStatus α → Nat
  | .Allowed => 0
  | .Warning _ _ _ => 1
  | .Exceeded _ _ _ => 2

/-- **C8**: the budget-check conversion in `check_budget_inner` preserves the
discriminant for every input — `Allowed ↦ Allowed`, `Warning ↦ Warning`,
`Exceeded ↦ Exceeded`, never cross-mapping — with the `current_usd` and
`limit_usd` payload fields carried over unchanged and the period
`Session`/`Day`/`Month` rendered as `"session"`/`"day"`/`"month"`. -/
theorem C8_budget_conversion_preserves_discriminant :
    (∀ (α : Type) (c : BudgetCheck α),
        (convert_budget_check c).tag = c.tag) ∧
    (∀ (α : Type), convert_budget_check (.Allowed : BudgetCheck α) = .Allowed) ∧
    (∀ (α : Type) (cu lu : α) (p : UsagePeriod),
        convert_budget_check (.Warning cu lu p) =
          .Warning cu lu (format_period p)) ∧
    (∀ (α : Type) (cu lu : α) (p : UsagePeriod),
        convert_budget_check (.Exceeded cu lu p) =
          .Exceeded cu lu (format_period p)) ∧
    format_period .Session = "session" ∧
    format_period .Day = "day" ∧
    format_period .Month = "month" := by
  refine ⟨?_, ?_, ?_, ?_, rfl, rfl, rfl⟩
  · intro α c
    cases c <;> rfl
  · intro α
    rfl
  · intro α cu lu p
    rfl
  · intro α cu lu p
    rfl

/-! ## Panic boundary (`lib.rs`) -/

/-- A caught panic payload (`Box<dyn Any + Send>`), as `panic_detail` in
`lib.rs` discriminates it: a `&str` payload, a `String` payload, or anything
else. -/
inductive PanicPayload : Type
  | strRef (s : String)
  | strOwned (s : String)
  | other
  deriving DecidableEq, Repr

/-- `panic_detail` from `lib.rs`: prefer a `&str` payload, then a `String`
payload, otherwise the fixed text `"unknown panic"`. -/
def panic_detail : PanicPayload → String
  | .strRef s => s
  | .strOwned s => s
  | .other => "unknown panic"

/-- The execution outcome of one call into an entry point's inner function:
either it returned normally (with an `Ok` value or a typed error), or a panic
unwound out of its call tree and was caught by `catch_unwind`. -/
inductive CallOutcome (α : Type) : Type
  | normal (r : Except FfiError α)
  | panicked (p : PanicPayload)

/-- The panic boundary applied by every `#[uniffi::export]` entry point in
`lib.rs`: `catch_unwind(...).unwrap_or_else(|e| Err(FfiError::InternalPanic {
detail: panic_detail(&e) }))`.  Every exported function (`start_daemon`,
`stop_daemon`, `get_status`, `send_message`, …) instantiates exactly this
combinator around its inner function. -/
def ffi_boundary {α : Type} : CallOutcome α → Except FfiError α
  | .normal r => r
  | .panicked p => .error (.InternalPanic (panic_detail p))

/-- **C9**: for every exported entry point and every panic raised anywhere in
its call tree, the call returns `Err(InternalPanic)` rather than unwinding
into the foreign caller (the boundary is total: it always produces a
`Result`, and a panicked execution always maps to `InternalPanic`), and the
carried detail string is the panic payload when that payload is a `&str` or
a `String`, and the fixed text `"unknown panic"` otherwise. -/
theorem C9_panic_boundary :
    (∀ (α : Type) (p : PanicPayload),
        ffi_boundary (.panicked p : CallOutcome α) =
          .error (.InternalPanic (panic_detail p))) ∧
    (∀ (α : Type) (out : CallOutcome α),
        (∀ p, out = .panicked p →
          ffi_boundary out = .error (.InternalPanic (panic_detail p)))) ∧
    (∀ s, panic_detail (.strRef s) = s) ∧
    (∀ s, panic_detail (.strOwned s) = s) ∧
    panic_detail .other = "unknown panic" := by
  refine ⟨?_, ?_, ?_, ?_, rfl⟩
  · intro α p
    rfl
  · intro α out p hp
    subst hp
    rfl
  · intro s
    rfl
  · intro s
    rfl

/-- Witness for C9: a concrete panicked call with a non-string payload maps
to the fixed `"unknown panic"` detail. -/
theorem C9_panic_boundary_witness :
    ffi_boundary (.panicked .other : CallOutcome Unit) =
      .error (.InternalPanic "unknown panic") :=
  C9_panic_boundary.2.1 Unit (.panicked .other) .other rfl

/-! ## Daemon lifecycle (`runtime.rs`)

The lifecycle functions are embedded as explicit state transformers over a
`SysState` holding the two process-global cells they touch: the `RUNTIME`
once-cell and the `DAEMON` mutex slot.  Each function also returns the list
of side effects it performed, in program order. -/

/-- The reliability section of `zeroclaw::Config` consumed by
`start_daemon_inner`. -/
structure Reliability where
  channel_initial_backoff_secs : Nat
  channel_max_backoff_secs : Nat
  deriving DecidableEq, Repr

/-- Presence of each real-time channel configuration
(`config.channels_config.<channel>.is_some()`). -/
structure ChannelsConfig where
  telegram : Bool
  discord : Bool
  slack : Bool
  imessage : Bool
  matrix : Bool
  whatsapp : Bool
  email : Bool
  deriving DecidableEq, Repr

/-- The slice of `zeroclaw::Config` that `start_daemon_inner` reads or
writes: the backoff parameters, the `cost.enabled` and `heartbeat.enabled`
flags, the channel configuration, and the two paths it overrides. -/
structure Config where
  reliability : Reliability
  cost_enabled : Bool
  heartbeat_enabled : Bool
  channels_config : ChannelsConfig
  workspace_dir : String
  config_path : String
  deriving DecidableEq, Repr

/-- `has_supervised_channels` from `runtime.rs`: true if any real-time
channel is configured. -/
def has_supervised_channels (config : Config) : Bool :=
  config.channels_config.telegram || config.channels_config.discord ||
    config.channels_config.slack || config.channels_config.imessage ||
    config.channels_config.matrix || config.channels_config.whatsapp ||
    config.channels_config.email

/-- `DaemonState` from `runtime.rs`.  Task join-handles are identified by
the name of the component they supervise; the opaque `CostTracker` and
`Arc<dyn Memory>` handles are modelled by `Option Unit` (present/absent). -/
structure DaemonState where
  handles : List String
  gateway_port : Nat
  cost_tracker : Option Unit
  config : Config
  memory : Option Unit
  deriving DecidableEq, Repr

/-- The two process-global cells of `runtime.rs`: whether the `RUNTIME`
once-cell has been populated, and the contents of the `DAEMON` mutex. -/
structure SysState where
  runtime_up : Bool
  daemon : Option DaemonState
  deriving DecidableEq, Repr

/-- One observable side effect of a lifecycle operation, in program order. -/
inductive Effect : Type
  /-- `std::fs::create_dir_all(&config.workspace_dir)`. -/
  | createWorkspaceDir (path : String)
  /-- `HeartbeatEngine::ensure_heartbeat_file(&config.workspace_dir)`. -/
  | ensureHeartbeatFile (path : String)
  /-- `get_or_create_runtime()` was reached. -/
  | acquireRuntime
  /-- `daemon_mutex().lock()`. -/
  | acquireDaemonMutex
  /-- The daemon mutex guard was dropped. -/
  | releaseDaemonMutex
  /-- `*guard = Some(DaemonState { .. })`. -/
  | installState
  /-- A taken `DaemonState` was dropped (end of `stop_daemon_inner`). -/
  | dropState
  /-- `spawn_state_writer(config.clone())`. -/
  | spawnStateWriter
  /-- `spawn_component_supervisor(name, initial, max, ..)`. -/
  | spawnSupervisor (name : String) (initial_backoff max_backoff : Nat)
  /-- `handle.abort()`. -/
  | abortHandle (handle : String)
  /-- `handle.await`. -/
  | awaitHandle (handle : String)
  /-- `zeroclaw::health::mark_component_ok(name)`. -/
  | markComponentOk (name : String)
  /-- `zeroclaw::health::mark_component_error(name, reason)`. -/
  | markComponentError (name : String) (reason : String)
  /-- `client.post(&url)...send()`. -/
  | httpPost (url : String)
  deriving DecidableEq, Repr

/-- Rust `data_dir.starts_with('/')`. -/
def startsWithSlash (s : String) : Bool :=
  match s.data with
  | c :: _ => c = '/'
  | [] => false

/-- Rust `data_dir.contains("..")`: the two-character pattern `..` occurs.
(`.` is a single ASCII byte, so byte-substring search and character-level
search coincide.) -/
def containsDotDot : List Char → Bool
  | '.' :: '.' :: _ => true
  | _ :: rest => containsDotDot rest
  | [] => false

/-- The per-character host validation of `start_daemon_inner`:
`c.is_ascii_alphanumeric() || c == '.' || c == ':' || c == '-'`. -/
def isHostChar (c : Char) : Bool :=
  (48 ≤ c.toNat && c.toNat ≤ 57) || (65 ≤ c.toNat && c.toNat ≤ 90) ||
    (97 ≤ c.toNat && c.toNat ≤ 122) || c == '.' || c == ':' || c == '-'

/-- `get_or_create_runtime` from `runtime.rs`: if the `RUNTIME` once-cell is
already populated, succeed; otherwise attempt to build the tokio runtime
(outcome supplied by `runtime_build`, with the builder's error text), storing
it on success and reporting `SpawnError` on failure. -/
def get_or_create_runtime (runtime_build : Except String Unit) (st : SysState) :
    Except FfiError Unit × SysState :=
  if st.runtime_up then (.ok (), st)
  else
    match runtime_build with
    | .ok () => (.ok (), { st with runtime_up := true })
    | .error e =>
        (.error (.SpawnError ("failed to create tokio runtime: " ++ e)), st)

/-- Outcomes of the external collaborators `start_daemon_inner` consults,
for the call under scrutiny: TOML parsing, `create_dir_all`, the tokio
runtime builder, daemon-mutex poisoning, `CostTracker::new` and
`create_memory`. -/
structure StartEnv where
  parse_config : String → Except String Config
  create_dir : Except String Unit
  runtime_build : Except String Unit
  mutex_poisoned : Bool
  cost_tracker_new_ok : Bool
  create_memory_ok : Bool

/-- The effects `start_daemon_inner` performs inside `runtime.block_on`
between the presence check and the state installation: mark the daemon
healthy, ensure the heartbeat file when enabled, spawn the state writer,
the gateway supervisor, the channels supervisor (or mark the channels
component healthy when no real-time channel is configured), the heartbeat
supervisor when enabled, and the scheduler supervisor. -/
def startMidEffects (config : Config) (initial_backoff max_backoff : Nat) :
    List Effect :=
  [.markComponentOk "daemon"] ++
  (if config.heartbeat_enabled then
      [.ensureHeartbeatFile config.workspace_dir]
    else []) ++
  [.spawnStateWriter,
   .spawnSupervisor "gateway" initial_backoff max_backoff] ++
  (if has_supervised_channels config then
      [.spawnSupervisor "channels" initial_backoff max_backoff]
    else [.markComponentOk "channels"]) ++
  (if config.heartbeat_enabled then
      [.spawnSupervisor "heartbeat" initial_backoff max_backoff]
    else []) ++
  [.spawnSupervisor "scheduler" initial_backoff max_backoff]

/-- The join handles collected into `DaemonState.handles` by
`start_daemon_inner`, identified by component name, in spawn order. -/
def startHandles (config : Config) : List String :=
  ["state_writer", "gateway"] ++
  (if has_supervised_channels config then ["channels"] else []) ++
  (if config.heartbeat_enabled then ["heartbeat"] else []) ++
  ["scheduler"]

/-- `start_daemon_inner` from `runtime.rs`, transcribed branch by branch:
validate `data_dir` and `host`; parse the TOML; override the workspace and
config paths; create the workspace directory; obtain the shared runtime;
lock the daemon mutex; fail if a state already exists; otherwise compute the
backoff parameters, initialise the optional cost tracker and memory backend
best-effort, spawn the state writer and the component supervisors, and
install the new `DaemonState` while still holding the mutex guard. -/
def start_daemon_inner (env : StartEnv) (st : SysState)
    (config_toml data_dir host : String) (port : Nat) :
    Except FfiError Unit × List Effect × SysState :=
  if ¬ startsWithSlash data_dir then
    (.error (.ConfigError "data_dir must be an absolute path"), [], st)
  else if containsDotDot data_dir.data then
    (.error (.ConfigError "data_dir must not contain \x27..\x27 segments"), [], st)
  else if host.data.isEmpty then
    (.error (.ConfigError "host must not be empty"), [], st)
  else if ¬ host.data.all isHostChar then
    (.error (.ConfigError "host contains invalid characters"), [], st)
  else
    match env.parse_config config_toml with
    | .error e =>
        (.error (.ConfigError ("failed to parse config TOML: " ++ e)), [], st)
    | .ok config0 =>
      let config : Config :=
        { config0 with
          workspace_dir := data_dir ++ "/workspace"
          config_path := data_dir ++ "/config.toml" }
      match env.create_dir with
      | .error e =>
          (.error (.ConfigError ("failed to create workspace dir: " ++ e)),
           [.createWorkspaceDir config.workspace_dir], st)
      | .ok () =>
        match get_or_create_runtime env.runtime_build st with
        | (.error err, st1) =>
            (.error err,
             [.createWorkspaceDir config.workspace_dir, .acquireRuntime], st1)
        | (.ok (), st1) =>
          if env.mutex_poisoned then
            (.error (.StateCorrupted "daemon mutex poisoned"),
             [.createWorkspaceDir config.workspace_dir, .acquireRuntime], st1)
          else
            match st1.daemon with
            | some _ =>
                (.error (.StateError "daemon already running"),
                 [.createWorkspaceDir config.workspace_dir, .acquireRuntime,
                  .acquireDaemonMutex, .releaseDaemonMutex], st1)
            | none =>
              let initial_backoff :=
                max config.reliability.channel_initial_backoff_secs 1
              let max_backoff :=
                max config.reliability.channel_max_backoff_secs initial_backoff
              let cost_tracker : Option Unit :=
                if config.cost_enabled then
                  if env.cost_tracker_new_ok then some () else none
                else none
              let memory : Option Unit :=
                if env.create_memory_ok then some () else none
              (.ok (),
               [.createWorkspaceDir config.workspace_dir, .acquireRuntime,
                .acquireDaemonMutex] ++
                 startMidEffects config initial_backoff max_backoff ++
                 [.installState, .releaseDaemonMutex],
               { st1 with
                 daemon := some
                   { handles := startHandles config
                     gateway_port := port
                     cost_tracker := cost_tracker
                     config := config
                     memory := memory } })

/-- Outcomes of the external collaborators `stop_daemon_inner` consults. -/
structure StopEnv where
  runtime_build : Except String Unit
  mutex_poisoned : Bool

/-- `stop_daemon_inner` from `runtime.rs`: obtain the shared runtime, lock
the daemon mutex, `take()` the state (failing with `StateError` when it is
`None`), abort every handle, await every handle, then mark the daemon
component errored with reason `"shutdown requested"`. -/
def stop_daemon_inner (env : StopEnv) (st : SysState) :
    Except FfiError Unit × List Effect × SysState :=
  match get_or_create_runtime env.runtime_build st with
  | (.error err, st1) => (.error err, [.acquireRuntime], st1)
  | (.ok (), st1) =>
    if env.mutex_poisoned then
      (.error (.StateCorrupted "daemon mutex poisoned"), [.acquireRuntime], st1)
    else
      match st1.daemon with
      | none =>
          (.error (.StateError "daemon not running"),
           [.acquireRuntime, .acquireDaemonMutex, .releaseDaemonMutex], st1)
      | some state =>
          (.ok (),
           [.acquireRuntime, .acquireDaemonMutex] ++
             state.handles.map .abortHandle ++
             state.handles.map .awaitHandle ++
             [.markComponentError "daemon" "shutdown requested", .dropState,
              .releaseDaemonMutex],
           { st1 with daemon := none })

/-! ## Message dispatch (`runtime.rs:send_message_inner`) -/

/-- `MAX_MESSAGE_BYTES` from `send_message_inner`. -/
def MAX_MESSAGE_BYTES : Nat := 1048576

/-- The UTF-8 byte length of a string — Rust's `String::len()`.  A scalar
value below `0x80` encodes in one byte, below `0x800` in two, below
`0x10000` in three, and in four otherwise. -/
def utf8Len (s : String) : Nat :=
  s.data.foldl
    (fun n c =>
      n + (if c.toNat < 0x80 then 1
           else if c.toNat < 0x800 then 2
           else if c.toNat < 0x10000 then 3
           else 4))
    0

/-- Outcomes of the external collaborators `send_message_inner` consults:
the tokio runtime builder, daemon-mutex poisoning, `reqwest::Client` build,
and the whole gateway HTTP interaction.  Every failure mode of the HTTP
interaction (send failure, non-2xx status, body parse failure, missing
`response` field) surfaces as `SpawnError` in the source, so the
interaction is abstracted to `Except String String`: an error detail or the
extracted response string. -/
structure SendEnv where
  runtime_build : Except String Unit
  mutex_poisoned : Bool
  client_build : Except String Unit
  http : Except String String

/-- `send_message_inner` from `runtime.rs`: reject messages above
`MAX_MESSAGE_BYTES` with `ConfigError` before anything else; then obtain
the shared runtime, read `gateway_port` under the daemon mutex (releasing
the guard before the HTTP work), build the client and POST to the local
gateway webhook URL. -/
def send_message_inner (env : SendEnv) (st : SysState) (message : String) :
    Except FfiError String × List Effect × SysState :=
  if MAX_MESSAGE_BYTES < utf8Len message then
    (.error (.ConfigError
        ("message too large (" ++ toString (utf8Len message) ++
          " bytes, max 1048576)")),
     [], st)
  else
    match get_or_create_runtime env.runtime_build st with
    | (.error err, st1) => (.error err, [.acquireRuntime], st1)
    | (.ok (), st1) =>
      if env.mutex_poisoned then
        (.error (.StateCorrupted "daemon mutex poisoned"), [.acquireRuntime], st1)
      else
        match st1.daemon with
        | none =>
            (.error (.StateError "daemon not running"),
             [.acquireRuntime, .acquireDaemonMutex, .releaseDaemonMutex], st1)
        | some state =>
          let url :=
            "http://127.0.0.1:" ++ toString state.gateway_port ++ "/webhook"
          match env.client_build with
          | .error e =>
              (.error (.SpawnError ("failed to build HTTP client: " ++ e)),
               [.acquireRuntime, .acquireDaemonMutex, .releaseDaemonMutex], st1)
          | .ok () =>
            match env.http with
            | .error e =>
                (.error (.SpawnError e),
                 [.acquireRuntime, .acquireDaemonMutex, .releaseDaemonMutex,
                  .httpPost url], st1)
            | .ok resp =>
                (.ok resp,
                 [.acquireRuntime, .acquireDaemonMutex, .releaseDaemonMutex,
                  .httpPost url], st1)

/-! ## Call sequences over the lifecycle -/

/-- One foreign call into the lifecycle entry points, with its collaborator
outcomes. -/
inductive FfiCall : Type
  | start (env : StartEnv) (config_toml data_dir host : String) (port : Nat)
  | stop (env : StopEnv)

/-- Applies one call to the process-global state, returning the new state
and the call's effect trace. -/
def stepCall (st : SysState) : FfiCall → SysState × List Effect
  | .start env config_toml data_dir host port =>
      let r := start_daemon_inner env st config_toml data_dir host port
      (r.2.2, r.2.1)
  | .stop env =>
      let r := stop_daemon_inner env st
      (r.2.2, r.2.1)

/-- Runs a sequence of calls, concatenating the effect traces. -/
def runCalls (st : SysState) : List FfiCall → SysState × List Effect
  | [] => (st, [])
  | c :: cs =>
      let s1 := stepCall st c
      let s2 := runCalls s1.1 cs
      (s2.1, s1.2 ++ s2.2)

/-- Whether an effect is a `DaemonState` installation. -/
def isInstall : Effect → Bool
  | .installState => true
  | _ => false

/-- Whether an effect is a `DaemonState` destruction. -/
def isDrop : Effect → Bool
  | .dropState => true
  | _ => false

/-- The number of `DaemonState` values alive in a trace-extended execution:
installs minus drops is tracked against the slot occupancy. -/
def liveCount (st : SysState) : Nat :=
  if st.daemon.isSome then 1 else 0

theorem get_or_create_runtime_daemon (rb : Except String Unit) (st : SysState) :
    (get_or_create_runtime rb st).2.daemon = st.daemon := by
  unfold get_or_create_runtime
  split
  · rfl
  · cases rb with
    | ok u => rfl
    | error e => rfl

theorem get_or_create_runtime_ok (rb : Except String Unit) (st : SysState)
    (h : st.runtime_up = true ∨ rb = .ok ()) :
    get_or_create_runtime rb st = (.ok (), { st with runtime_up := true }) := by
  unfold get_or_create_runtime
  by_cases hru : st.runtime_up = true
  · rw [if_pos hru]
    cases st
    simp_all
  · rw [if_neg hru]
    rcases h with h | h
    · exact absurd h hru
    · rw [h]

theorem startMidEffects_countP_install (c : Config) (i m : Nat) :
    (startMidEffects c i m).countP (fun e => isInstall e) = 0 := by
  by_cases h1 : c.heartbeat_enabled <;>
    by_cases h2 : has_supervised_channels c <;>
      simp [startMidEffects, h1, h2, List.countP_append, List.countP_cons,
        List.countP_nil, isInstall]

theorem startMidEffects_countP_drop (c : Config) (i m : Nat) :
    (startMidEffects c i m).countP (fun e => isDrop e) = 0 := by
  by_cases h1 : c.heartbeat_enabled <;>
    by_cases h2 : has_supervised_channels c <;>
      simp [startMidEffects, h1, h2, List.countP_append, List.countP_cons,
        List.countP_nil, isDrop]

theorem map_abortHandle_countP_install (hs : List String) :
    (hs.map Effect.abortHandle).countP (fun e => isInstall e) = 0 := by
  induction hs with
  | nil => rfl
  | cons h t ih => simp [List.countP_cons, isInstall, ih]

theorem map_abortHandle_countP_drop (hs : List String) :
    (hs.map Effect.abortHandle).countP (fun e => isDrop e) = 0 := by
  induction hs with
  | nil => rfl
  | cons h t ih => simp [List.countP_cons, isDrop, ih]

theorem map_awaitHandle_countP_install (hs : List String) :
    (hs.map Effect.awaitHandle).countP (fun e => isInstall e) = 0 := by
  induction hs with
  | nil => rfl
  | cons h t ih => simp [List.countP_cons, isInstall, ih]

theorem map_awaitHandle_countP_drop (hs : List String) :
    (hs.map Effect.awaitHandle).countP (fun e => isDrop e) = 0 := by
  induction hs with
  | nil => rfl
  | cons h t ih => simp [List.countP_cons, isDrop, ih]

theorem stepCall_live (st : SysState) (c : FfiCall) :
    (stepCall st c).2.countP (fun e => isInstall e) + liveCount st =
      (stepCall st c).2.countP (fun e => isDrop e) +
        liveCount (stepCall st c).1 := by
  cases c with
  | start env ct dd host p =>
    simp only [stepCall]
    unfold start_daemon_inner
    split
    · simp [liveCount, isInstall, isDrop, List.countP_cons, List.countP_nil]
    split
    · simp [liveCount, isInstall, isDrop, List.countP_cons, List.countP_nil]
    split
    · simp [liveCount, isInstall, isDrop, List.countP_cons, List.countP_nil]
    split
    · simp [liveCount, isInstall, isDrop, List.countP_cons, List.countP_nil]
    split
    · simp [liveCount, isInstall, isDrop, List.countP_cons, List.countP_nil]
    case _ c0 _ =>
      split
      · simp [liveCount, isInstall, isDrop, List.countP_cons, List.countP_nil]
      case _ u _ =>
        split
        case _ err st1 heq =>
          have hd : st1.daemon = st.daemon := by
            have h := congrArg (fun x => x.2.daemon) heq
            simp only [get_or_create_runtime_daemon] at h
            exact h.symm
          simp [liveCount, hd, isInstall, isDrop, List.countP_cons, List.countP_nil]
        case _ u2 st1 heq =>
          have hd : st1.daemon = st.daemon := by
            have h := congrArg (fun x => x.2.daemon) heq
            simp only [get_or_create_runtime_daemon] at h
            exact h.symm
          split
          · simp [liveCount, hd, isInstall, isDrop, List.countP_cons, List.countP_nil]
          split
          case _ s hsome =>
            simp [liveCount, hd, hsome, isInstall, isDrop, List.countP_cons, List.countP_nil]
          case _ hnone =>
            have hn : st.daemon = none := by rw [← hd, hnone]
            simp only [List.countP_append, startMidEffects_countP_install,
              startMidEffects_countP_drop]
            simp [liveCount, hn, List.countP_cons, List.countP_nil, isInstall,
              isDrop]
  | stop env =>
    simp only [stepCall]
    unfold stop_daemon_inner
    split
    case _ err st1 heq =>
      have hd : st1.daemon = st.daemon := by
        have h := congrArg (fun x => x.2.daemon) heq
        simp only [get_or_create_runtime_daemon] at h
        exact h.symm
      simp [liveCount, hd, isInstall, isDrop, List.countP_cons, List.countP_nil]
    case _ u st1 heq =>
      have hd : st1.daemon = st.daemon := by
        have h := congrArg (fun x => x.2.daemon) heq
        simp only [get_or_create_runtime_daemon] at h
        exact h.symm
      split
      · simp [liveCount, hd, isInstall, isDrop, List.countP_cons, List.countP_nil]
      split
      case _ hnone =>
        have hn : st.daemon = none := by rw [← hd, hnone]
        simp [liveCount, hn, hnone, isInstall, isDrop, List.countP_cons,
          List.countP_nil]
      case _ s hsome =>
        have hs : st.daemon = some s := by rw [← hd, hsome]
        simp only [List.countP_append, map_abortHandle_countP_install,
          map_abortHandle_countP_drop, map_awaitHandle_countP_install,
          map_awaitHandle_countP_drop]
        simp [liveCount, hs, List.countP_cons, List.countP_nil, isInstall,
          isDrop]

theorem runCalls_live (calls : List FfiCall) :
    ∀ st : SysState,
      (runCalls st calls).2.countP (fun e => isInstall e) + liveCount st =
        (runCalls st calls).2.countP (fun e => isDrop e) +
          liveCount (runCalls st calls).1 := by
  induction calls with
  | nil => intro st; simp [runCalls]
  | cons c cs ih =>
    intro st
    simp only [runCalls, List.countP_append]
    have h1 := stepCall_live st c
    have h2 := ih (stepCall st c).1
    omega

theorem releaseDaemonMutex_not_mem_startMidEffects (c : Config) (i m : Nat) :
    Effect.releaseDaemonMutex ∉ startMidEffects c i m := by
  by_cases h1 : c.heartbeat_enabled <;>
    by_cases h2 : has_supervised_channels c <;>
      simp [startMidEffects, h1, h2]

theorem acquireDaemonMutex_not_mem_startMidEffects (c : Config) (i m : Nat) :
    Effect.acquireDaemonMutex ∉ startMidEffects c i m := by
  by_cases h1 : c.heartbeat_enabled <;>
    by_cases h2 : has_supervised_channels c <;>
      simp [startMidEffects, h1, h2]

/-- **C1**: (1) for every sequence of `start_daemon`/`stop_daemon` calls
(from a fresh process state, hence for every prefix of any sequence), the
number of `DaemonState` installations equals the number of destructions
plus the slot occupancy, and the occupancy never exceeds one — at most one
`DaemonState` exists at any instant; (2) if a state already exists when
`start_daemon_inner` reaches the presence check (all validation, parsing,
directory creation and runtime acquisition succeeded and the mutex is not
poisoned), it returns `StateError` ("daemon already running") and the
stored state is unchanged; (3) on the installing path, the trace between
acquiring the daemon mutex and installing the new state contains neither a
release nor a re-acquisition of that mutex — the guard is held
continuously from the presence check to the installation. -/
theorem C1_single_daemon_state :
    (∀ (ru : Bool) (calls : List FfiCall),
        (runCalls ⟨ru, none⟩ calls).2.countP (fun e => isInstall e) =
          (runCalls ⟨ru, none⟩ calls).2.countP (fun e => isDrop e) +
            liveCount (runCalls ⟨ru, none⟩ calls).1 ∧
        liveCount (runCalls ⟨ru, none⟩ calls).1 ≤ 1) ∧
    (∀ (env : StartEnv) (st : SysState) (ct dd host : String) (p : Nat)
        (s : DaemonState) (c0 : Config),
        startsWithSlash dd = true →
        containsDotDot dd.data = false →
        host.data.isEmpty = false →
        host.data.all isHostChar = true →
        env.parse_config ct = .ok c0 →
        env.create_dir = .ok () →
        (st.runtime_up = true ∨ env.runtime_build = .ok ()) →
        env.mutex_poisoned = false →
        st.daemon = some s →
        (start_daemon_inner env st ct dd host p).1 =
            .error (.StateError "daemon already running") ∧
          (start_daemon_inner env st ct dd host p).2.2.daemon = some s) ∧
    (∀ (env : StartEnv) (st : SysState) (ct dd host : String) (p : Nat)
        (c0 : Config),
        startsWithSlash dd = true →
        containsDotDot dd.data = false →
        host.data.isEmpty = false →
        host.data.all isHostChar = true →
        env.parse_config ct = .ok c0 →
        env.create_dir = .ok () →
        (st.runtime_up = true ∨ env.runtime_build = .ok ()) →
        env.mutex_poisoned = false →
        st.daemon = none →
        ∃ mid,
          (start_daemon_inner env st ct dd host p).2.1 =
            [.createWorkspaceDir (dd ++ "/workspace"), .acquireRuntime,
             .acquireDaemonMutex] ++ mid ++
              [.installState, .releaseDaemonMutex] ∧
          Effect.releaseDaemonMutex ∉ mid ∧
          Effect.acquireDaemonMutex ∉ mid ∧
          (start_daemon_inner env st ct dd host p).1 = .ok () ∧
          (start_daemon_inner env st ct dd host p).2.2.daemon.isSome = true) := by
  refine ⟨?_, ?_, ?_⟩
  · intro ru calls
    have h := runCalls_live calls ⟨ru, none⟩
    have hz : liveCount ⟨ru, none⟩ = 0 := rfl
    constructor
    · omega
    · by_cases hb : (runCalls ⟨ru, none⟩ calls).1.daemon.isSome <;>
        simp [liveCount, hb]
  · intro env st ct dd host p s c0 h1 h2 h3 h4 h5 h6 h7 h8 hsome
    have ho := get_or_create_runtime_ok env.runtime_build st h7
    simp only [start_daemon_inner, h1, h2, h3, h4, h5, h6, ho, h8]
    simp [hsome]
  · intro env st ct dd host p c0 h1 h2 h3 h4 h5 h6 h7 h8 hnone
    have ho := get_or_create_runtime_ok env.runtime_build st h7
    refine ⟨startMidEffects
        { c0 with
          workspace_dir := dd ++ "/workspace"
          config_path := dd ++ "/config.toml" }
        (max c0.reliability.channel_initial_backoff_secs 1)
        (max c0.reliability.channel_max_backoff_secs
          (max c0.reliability.channel_initial_backoff_secs 1)),
      ?_, releaseDaemonMutex_not_mem_startMidEffects _ _ _,
      acquireDaemonMutex_not_mem_startMidEffects _ _ _, ?_, ?_⟩
    · simp only [start_daemon_inner, h1, h2, h3, h4, h5, h6, ho, h8]
      simp [hnone]
    · simp only [start_daemon_inner, h1, h2, h3, h4, h5, h6, ho, h8]
      simp [hnone]
    · simp only [start_daemon_inner, h1, h2, h3, h4, h5, h6, ho, h8]
      simp [hnone]

/-- Witness for C1: a start call while a concrete daemon state is stored
fails with `StateError` and leaves that state in place. -/
theorem C1_single_daemon_state_witness :
    (start_daemon_inner
        ⟨fun _ => .ok ⟨⟨1, 60⟩, false, false, ⟨false, false, false, false,
            false, false, false⟩, "", ""⟩,
          .ok (), .ok (), false, true, true⟩
        ⟨true, some ⟨[], 8080, none,
          ⟨⟨1, 60⟩, false, false, ⟨false, false, false, false, false, false,
            false⟩, "", ""⟩, none⟩⟩
        "" "/data" "localhost" 8080).1 =
      .error (.StateError "daemon already running") :=
  (C1_single_daemon_state.2.1 _ _ "" "/data" "localhost" 8080 _ _
    (by decide) (by decide) (by decide) (by decide) rfl rfl (Or.inl rfl) rfl
    rfl).1

/-- **C2**: whenever `data_dir` does not start with `/` or contains the
substring `..`, or `host` is empty or contains a character outside
ASCII-alphanumerics, `.`, `:` and `-`, `start_daemon_inner` returns
`ConfigError` with an empty effect trace — in particular before any
filesystem mutation (no workspace directory creation) and before the
daemon mutex is acquired — and the process state is unchanged. -/
theorem C2_start_validation_rejects_early :
    ∀ (env : StartEnv) (st : SysState) (ct dd host : String) (p : Nat),
      (startsWithSlash dd = false ∨ containsDotDot dd.data = true ∨
        host.data.isEmpty = true ∨ host.data.all isHostChar = false) →
      ∃ d, start_daemon_inner env st ct dd host p =
        (.error (.ConfigError d), [], st) := by
  intro env st ct dd host p h
  by_cases h1 : startsWithSlash dd
  · by_cases h2 : containsDotDot dd.data
    · exact ⟨"data_dir must not contain \x27..\x27 segments",
        by simp [start_daemon_inner, h1, h2]⟩
    · by_cases h3 : host.data.isEmpty
      · exact ⟨"host must not be empty",
          by simp [start_daemon_inner, h1, h2, h3]⟩
      · by_cases h4 : host.data.all isHostChar
        · exfalso
          rcases h with h | h | h | h <;> simp_all
        · exact ⟨"host contains invalid characters",
            by simp [start_daemon_inner, h1, h2, h3, h4]⟩
  · exact ⟨"data_dir must be an absolute path", by simp [start_daemon_inner, h1]⟩

/-- Witness for C2: a relative `data_dir` is rejected with `ConfigError`,
an empty trace, and an unchanged state. -/
theorem C2_start_validation_rejects_early_witness :
    ∃ d, start_daemon_inner
        ⟨fun _ => .error "x", .ok (), .ok (), false, true, true⟩
        ⟨false, none⟩ "" "relative/path" "localhost" 8080 =
      (.error (.ConfigError d), [], ⟨false, none⟩) :=
  C2_start_validation_rejects_early _ _ "" "relative/path" "localhost" 8080
    (Or.inl (by decide))

/-- **C3** (code bug): the no-side-effect half of the claim holds — when
the lifecycle slot is `None`, `stop_daemon_inner` leaves the slot `None`,
aborts no task handle, modifies no component health and installs nothing —
and the `StateError` ("daemon not running") result holds whenever the
shared runtime is available and the mutex is not poisoned.  The first
conjunct exhibits the divergence: `stop_daemon_inner` calls
`get_or_create_runtime()` before checking the slot, so with no runtime yet
and a failing tokio builder it returns `SpawnError` — not the `StateError`
the claim (and the function's own doc comment, which lists only
`StateError` and `StateCorrupted`) prescribes. -/
theorem C3_stop_not_running :
    (stop_daemon_inner
        ⟨.error "Resource temporarily unavailable (os error 11)", false⟩
        ⟨false, none⟩ =
      (.error (.SpawnError
          "failed to create tokio runtime: Resource temporarily unavailable (os error 11)"),
       [.acquireRuntime], ⟨false, none⟩)) ∧
    (∀ (env : StopEnv) (st : SysState), st.daemon = none →
      (stop_daemon_inner env st).2.2.daemon = none ∧
      (∀ h, Effect.abortHandle h ∉ (stop_daemon_inner env st).2.1) ∧
      (∀ n r, Effect.markComponentError n r ∉ (stop_daemon_inner env st).2.1) ∧
      Effect.installState ∉ (stop_daemon_inner env st).2.1 ∧
      ((st.runtime_up = true ∨ env.runtime_build = .ok ()) →
        env.mutex_poisoned = false →
        (stop_daemon_inner env st).1 =
          .error (.StateError "daemon not running"))) := by
  constructor
  · rfl
  · intro env st hnone
    unfold stop_daemon_inner
    split
    case _ err st1 heq =>
      have hd : st1.daemon = st.daemon := by
        have h := congrArg (fun x => x.2.daemon) heq
        simp only [get_or_create_runtime_daemon] at h
        exact h.symm
      refine ⟨by simp [hd, hnone], by simp, by simp, by simp, ?_⟩
      intro h7 _
      have ho := get_or_create_runtime_ok env.runtime_build st h7
      rw [ho] at heq
      exact absurd (congrArg (fun x => x.1) heq) (by simp)
    case _ u st1 heq =>
      have hd : st1.daemon = st.daemon := by
        have h := congrArg (fun x => x.2.daemon) heq
        simp only [get_or_create_runtime_daemon] at h
        exact h.symm
      split
      case _ hpois =>
        refine ⟨by simp [hd, hnone], by simp, by simp, by simp, ?_⟩
        intro _ h8
        simp [h8] at hpois
      case _ hpois =>
        split
        case _ hn =>
          refine ⟨by simp [hd, hnone], by simp, by simp, by simp, ?_⟩
          intro _ _
          rfl
        case _ s hs =>
          rw [hd, hnone] at hs
          exact absurd hs (by simp)

/-- Witness for C3: with the runtime available and a healthy mutex, stop on
an empty slot yields exactly the claimed `StateError`. -/
theorem C3_stop_not_running_witness :
    (stop_daemon_inner ⟨.ok (), false⟩ ⟨false, none⟩).1 =
      .error (.StateError "daemon not running") :=
  (C3_stop_not_running.2 ⟨.ok (), false⟩ ⟨false, none⟩ rfl).2.2.2.2
    (Or.inr rfl) rfl

theorem get_or_create_runtime_error (rb : Except String Unit) (st : SysState)
    (err : FfiError) (st1 : SysState)
    (h : get_or_create_runtime rb st = (.error err, st1)) :
    ∃ e, err = .SpawnError ("failed to create tokio runtime: " ++ e) := by
  unfold get_or_create_runtime at h
  split at h
  · exact absurd (congrArg (fun x => x.1) h) (by simp)
  · cases rb with
    | ok u => exact absurd (congrArg (fun x => x.1) h) (by simp)
    | error e =>
      have := congrArg (fun x => x.1) h
      simp only [Except.error.injEq] at this
      exact ⟨e, this.symm⟩

/-- **C10**: a message whose UTF-8 length exceeds 1,048,576 bytes makes
`send_message_inner` return `ConfigError` with an empty effect trace (no
daemon mutex acquisition, no HTTP request) and an unchanged state, and the
result is independent of the daemon state (the state is never read);
messages at or below that size can never produce a `ConfigError`. -/
theorem C10_send_message_size_gate :
    (∀ (env : SendEnv) (st : SysState) (message : String),
        MAX_MESSAGE_BYTES < utf8Len message →
        send_message_inner env st message =
          (.error (.ConfigError
              ("message too large (" ++ toString (utf8Len message) ++
                " bytes, max 1048576)")),
           [], st)) ∧
    (∀ (env env2 : SendEnv) (st st2 : SysState) (message : String),
        MAX_MESSAGE_BYTES < utf8Len message →
        (send_message_inner env st message).1 =
          (send_message_inner env2 st2 message).1) ∧
    (∀ (env : SendEnv) (st : SysState) (message : String) (d : String),
        utf8Len message ≤ MAX_MESSAGE_BYTES →
        (send_message_inner env st message).1 ≠ .error (.ConfigError d)) := by
  have hbig : ∀ (env : SendEnv) (st : SysState) (message : String),
      MAX_MESSAGE_BYTES < utf8Len message →
      send_message_inner env st message =
        (.error (.ConfigError
            ("message too large (" ++ toString (utf8Len message) ++
              " bytes, max 1048576)")),
         [], st) := by
    intro env st message h
    unfold send_message_inner
    rw [if_pos h]
  refine ⟨hbig, ?_, ?_⟩
  · intro env env2 st st2 message h
    rw [hbig env st message h, hbig env2 st2 message h]
  · intro env st message d h
    unfold send_message_inner
    rw [if_neg (not_lt.mpr h)]
    split
    case _ err st1 heq =>
      obtain ⟨e, he⟩ := get_or_create_runtime_error _ _ _ _ heq
      subst he
      simp
    case _ u st1 heq =>
      split
      · simp
      split
      · simp
      split
      · simp
      split
      · simp
      · simp

/-- Witness for C10: a two-byte message passes the size gate and its result
is not a `ConfigError`. -/
theorem C10_send_message_size_gate_witness :
    utf8Len "hi" ≤ MAX_MESSAGE_BYTES ∧
      (send_message_inner ⟨.ok (), false, .ok (), .ok "pong"⟩ ⟨false, none⟩
          "hi").1 ≠ .error (.ConfigError "x") :=
  ⟨by decide,
   C10_send_message_size_gate.2.2 ⟨.ok (), false, .ok (), .ok "pong"⟩
     ⟨false, none⟩ "hi" "x" (by decide)⟩
